import Mathlib

/-!
Verification development for the metrics pipeline of the neuralmetrics dashboard
repository. The TypeScript data layer is shallowly embedded: JS numbers are
modelled as rationals (so the division-by-zero junk value 0 stands in for the
non-finite values the reference implementation can produce, which the spec
itself flags as an open question), timestamps are epoch milliseconds as
integers, and the process-wide random source together with the trigonometric
primitives of the host are injected through an environment record so that the
definitions stay executable and seedable, exactly as the spec requires.
-/

namespace NeuralMetrics

/-- A single metric data point, from the Metric interface in src/types.
Timestamps are epoch milliseconds. -/
structure Metric where
  id : String
  timestamp : ℤ
  revenue : ℚ
  activeUsers : ℚ
  engagementRate : ℚ
  deriving DecidableEq

/-- Placeholder metric used to model in-range JS array indexing with a total
function; it is only ever read at indices proven to be in range. -/
def mDefault : Metric := { id := "", timestamp := 0, revenue := 0, activeUsers := 0, engagementRate := 0 }

/-- JS arr.slice(-k): for k = 0 this is slice(0), the whole array; for k > 0 it
is the suffix of length min k arr.length. -/
def sliceLast (l : List α) (k : ℕ) : List α :=
  if k = 0 then l else l.drop (l.length - k)

/-- The window update of the onmessage handler in the useMetrics hook:
[...prev, m].slice(-50). -/
def pushMetric (prev : List Metric) (m : Metric) : List Metric :=
  sliceLast (prev ++ [m]) 50

/-- The metrics.reduce accumulation pattern of the source: a left fold of a
numeric selector with initial value 0. -/
def listSum (f : Metric → ℚ) (l : List Metric) : ℚ :=
  l.foldl (fun s m => s + f m) 0

lemma foldl_add_eq (f : Metric → ℚ) :
    ∀ (l : List Metric) (a : ℚ), l.foldl (fun s m => s + f m) a = a + (l.map f).sum := by
  intro l
  induction l with
  | nil => simp
  | cons m t ih =>
    intro a
    simp only [List.foldl_cons, List.map_cons, List.sum_cons, ih]
    ring

lemma listSum_eq_sum (f : Metric → ℚ) (l : List Metric) : listSum f l = (l.map f).sum := by
  simpa [listSum] using foldl_add_eq f l 0

/-- The summary record produced by calculateSummary in src/lib/data-generator.ts. -/
structure Summary where
  totalRevenue : ℚ
  totalUsers : ℚ
  avgEngagement : ℚ
  revenueChange : ℚ
  usersChange : ℚ
  engagementChange : ℚ
  deriving DecidableEq

/-- Math.floor(metrics.length * 0.2), the segment split index of
calculateSummary (line 194 of src/lib/data-generator.ts). -/
def summarySplitIndex (l : List Metric) : ℕ :=
  Int.toNat ⌊(l.length : ℚ) * (2 / 10)⌋

/-- metrics.slice(0, splitIndex). -/
def summaryFirstSegment (l : List Metric) : List Metric :=
  l.take (summarySplitIndex l)

/-- metrics.slice(-splitIndex); note that JS slice(-0) is slice(0), the whole
array, which matters when the split index is 0. -/
def summaryLastSegment (l : List Metric) : List Metric :=
  sliceLast l (summarySplitIndex l)

/-- seg.reduce(sum of f) / seg.length, the per-segment average pattern of
calculateSummary. -/
def segAvg (f : Metric → ℚ) (seg : List Metric) : ℚ :=
  listSum f seg / (seg.length : ℚ)

/-- (avgLast - avgFirst) / avgFirst * 100 for one metric selector, as computed
on lines 217-221 of src/lib/data-generator.ts. -/
def summaryChange (f : Metric → ℚ) (l : List Metric) : ℚ :=
  (segAvg f (summaryLastSegment l) - segAvg f (summaryFirstSegment l))
    / segAvg f (summaryFirstSegment l) * 100

/-- calculateSummary from src/lib/data-generator.ts. -/
def calculateSummary (metrics : List Metric) : Summary :=
  if metrics.length = 0 then
    { totalRevenue := 0, totalUsers := 0, avgEngagement := 0
      revenueChange := 0, usersChange := 0, engagementChange := 0 }
  else
    { totalRevenue := listSum (fun m => m.revenue) metrics
      totalUsers := (metrics.getD (metrics.length - 1) mDefault).activeUsers
      avgEngagement := listSum (fun m => m.engagementRate) metrics / (metrics.length : ℚ)
      revenueChange := summaryChange (fun m => m.revenue) metrics
      usersChange := summaryChange (fun m => m.activeUsers) metrics
      engagementChange := summaryChange (fun m => m.engagementRate) metrics }

/-- calculateChange from src/lib/utils.ts. -/
def calculateChange (oldValue newValue : ℚ) : ℚ :=
  if oldValue = 0 then (if 0 < newValue then 100 else 0)
  else (newValue - oldValue) / oldValue * 100

/-- Spec-side definition (refinement comparison): the arithmetic mean of a list
of numbers, following the spec wording for segment averages. -/
def specAvg (xs : List ℚ) : ℚ := xs.sum / (xs.length : ℚ)

/-- Spec-side definition (refinement comparison): the percentage-change formula
of the spec, (avg(lastSegment) - avg(firstSegment)) / avg(firstSegment) * 100. -/
def specChangePct (firstSeg lastSeg : List ℚ) : ℚ :=
  (specAvg lastSeg - specAvg firstSeg) / specAvg firstSeg * 100

lemma summarySplitIndex_eq (l : List Metric) : summarySplitIndex l = l.length / 5 := by
  unfold summarySplitIndex
  have h2 : ((l.length : ℚ)) * (2 / 10) = (l.length : ℚ) / 5 := by ring
  rw [h2]
  have hfloor : ⌊(l.length : ℚ) / 5⌋ = ((l.length / 5 : ℕ) : ℤ) := by
    rw [Int.floor_eq_iff]
    constructor
    · push_cast
      rw [le_div_iff₀ (by norm_num : (0 : ℚ) < 5)]
      exact_mod_cast Nat.div_mul_le_self l.length 5
    · push_cast
      rw [div_lt_iff₀ (by norm_num : (0 : ℚ) < 5)]
      exact_mod_cast (by omega : l.length < (l.length / 5 + 1) * 5)
  rw [hfloor, Int.toNat_natCast]

/-- A concrete metric point used in counterexamples. -/
def mA : Metric := { id := "a", timestamp := 0, revenue := 100, activeUsers := 10, engagementRate := 50 }

/-- Claim C7: calculateSummary on the empty sequence returns a Summary whose
six fields are all exactly 0, and (being a total function) raises no error. -/
theorem c7_summary_empty :
    calculateSummary [] =
      { totalRevenue := 0, totalUsers := 0, avgEngagement := 0
        revenueChange := 0, usersChange := 0, engagementChange := 0 } := by
  rfl

/-- Claim C10: calculateChange is total over the rationals (hence never a
non-finite value in this model); for oldValue = 0 it returns 100 when
newValue is positive and 0 otherwise, and for nonzero oldValue it returns
((newValue - oldValue) / oldValue) * 100. -/
theorem c10_calculateChange (o n : ℚ) :
    (o = 0 → calculateChange o n = (if 0 < n then 100 else 0)) ∧
    (o ≠ 0 → calculateChange o n = (n - o) / o * 100) := by
  constructor
  · intro h
    simp [calculateChange, h]
  · intro h
    simp [calculateChange, h]

/-- Witness for claim C10, also checking the worked example of the spec:
calculateChange(100, 150) = 50. -/
theorem c10_calculateChange_witness : calculateChange 100 150 = 50 := by
  have h := (c10_calculateChange 100 150).2 (by norm_num)
  rw [h]
  norm_num

/-- Claim C1 counterexample: on a sequence of length 1 the split index is
k = 0, yet the code computes the last segment as slice(-0) = the whole
sequence, not the last 0 points (which would be the empty list). -/
theorem c1_counterexample :
    summarySplitIndex [mA] = 0 ∧
    summaryLastSegment [mA] ≠ [mA].drop ([mA].length - summarySplitIndex [mA]) := by
  have h0 : summarySplitIndex [mA] = 0 := by
    rw [summarySplitIndex_eq]
    rfl
  refine ⟨h0, ?_⟩
  rw [h0]
  simp [summaryLastSegment, sliceLast, h0]

/-- Claim C1 (amended to sequences with at least 5 points, so that the split
index k is at least 1): the split index is floor(n * 0.2) = n / 5, the first
segment is the first k points, the last segment is the last k points, and
every change field equals the spec formula
(avg(lastSegment) - avg(firstSegment)) / avg(firstSegment) * 100 over the
corresponding metric values. -/
theorem c1_segment_change (l : List Metric) (h : 5 ≤ l.length) :
    summarySplitIndex l = l.length / 5 ∧
    summaryFirstSegment l = l.take (l.length / 5) ∧
    summaryLastSegment l = l.drop (l.length - l.length / 5) ∧
    (calculateSummary l).revenueChange =
      specChangePct ((l.take (l.length / 5)).map (fun m => m.revenue))
        ((l.drop (l.length - l.length / 5)).map (fun m => m.revenue)) ∧
    (calculateSummary l).usersChange =
      specChangePct ((l.take (l.length / 5)).map (fun m => m.activeUsers))
        ((l.drop (l.length - l.length / 5)).map (fun m => m.activeUsers)) ∧
    (calculateSummary l).engagementChange =
      specChangePct ((l.take (l.length / 5)).map (fun m => m.engagementRate))
        ((l.drop (l.length - l.length / 5)).map (fun m => m.engagementRate)) := by
  have hk := summarySplitIndex_eq l
  have hkpos : l.length / 5 ≠ 0 := by omega
  have hlen : ¬(l.length = 0) := by omega
  have hfirst : summaryFirstSegment l = l.take (l.length / 5) := by
    rw [summaryFirstSegment, hk]
  have hlast : summaryLastSegment l = l.drop (l.length - l.length / 5) := by
    rw [summaryLastSegment, sliceLast, hk, if_neg hkpos]
  have hchg : ∀ f : Metric → ℚ,
      summaryChange f l =
        specChangePct ((l.take (l.length / 5)).map f)
          ((l.drop (l.length - l.length / 5)).map f) := by
    intro f
    rw [summaryChange, hfirst, hlast]
    simp only [segAvg, specChangePct, specAvg, listSum_eq_sum, List.length_map]
  have hfields :
      (calculateSummary l).revenueChange = summaryChange (fun m => m.revenue) l ∧
      (calculateSummary l).usersChange = summaryChange (fun m => m.activeUsers) l ∧
      (calculateSummary l).engagementChange = summaryChange (fun m => m.engagementRate) l := by
    unfold calculateSummary
    rw [if_neg hlen]
    exact ⟨rfl, rfl, rfl⟩
  exact ⟨hk, hfirst, hlast, by rw [hfields.1]; exact hchg _,
    by rw [hfields.2.1]; exact hchg _,
    by rw [hfields.2.2]; exact hchg _⟩

/-- Witness for the amended claim C1 at a concrete 5-point sequence. -/
theorem c1_segment_change_witness :
    summarySplitIndex (List.replicate 5 mA) = 1 ∧
    summaryFirstSegment (List.replicate 5 mA) = (List.replicate 5 mA).take 1 ∧
    summaryLastSegment (List.replicate 5 mA) = (List.replicate 5 mA).drop 4 ∧
    (calculateSummary (List.replicate 5 mA)).revenueChange =
      specChangePct (((List.replicate 5 mA).take 1).map (fun m => m.revenue))
        (((List.replicate 5 mA).drop 4).map (fun m => m.revenue)) := by
  have h := c1_segment_change (List.replicate 5 mA) (by simp)
  norm_num at h
  exact ⟨h.1, h.2.1, h.2.2.1, h.2.2.2.1⟩

/-- Claim C2 (amended to the stream-message path): handling a metric stream
message always leaves at most 50 points in the window, and when the window
already holds exactly 50 points the new point is appended and the single
oldest point is dropped (FIFO eviction). The original claim fails because the
initial history fetch installs the entire fetched sequence, which can hold 52
points; see the counterexample. -/
theorem c2_window_fifo (w : List Metric) (m : Metric) :
    (pushMetric w m).length ≤ 50 ∧
    (w.length = 50 → pushMetric w m = w.drop 1 ++ [m]) := by
  constructor
  · simp only [pushMetric, sliceLast, if_neg (by norm_num : (50 : ℕ) ≠ 0),
      List.length_drop, List.length_append]
    omega
  · intro h
    have h1 : (w ++ [m]).length - 50 = 1 := by simp [h]
    simp only [pushMetric, sliceLast, if_neg (by norm_num : (50 : ℕ) ≠ 0), h1]
    rw [List.drop_append_of_le_length (by omega)]

/-- A second concrete metric point used in witnesses. -/
def mB : Metric := { id := "b", timestamp := 1, revenue := 200, activeUsers := 20, engagementRate := 60 }

/-- Witness for the amended claim C2 at a concrete 50-point window. -/
theorem c2_window_fifo_witness :
    (pushMetric (List.replicate 50 mA) mB).length ≤ 50 ∧
    pushMetric (List.replicate 50 mA) mB = (List.replicate 50 mA).drop 1 ++ [mB] := by
  exact ⟨(c2_window_fifo (List.replicate 50 mA) mB).1,
    (c2_window_fifo (List.replicate 50 mA) mB).2 (by simp)⟩

lemma getD_length_sub_one : ∀ (l : List Metric) (h : l ≠ []),
    l.getD (l.length - 1) mDefault = l.getLast h := by
  intro l
  induction l with
  | nil => intro h; exact absurd rfl h
  | cons a t ih =>
    intro h
    cases t with
    | nil => rfl
    | cons b t2 =>
      have h2 : (b :: t2) ≠ [] := by simp
      have hlen : (a :: b :: t2).length - 1 = ((b :: t2).length - 1) + 1 := by simp
      rw [hlen, List.getD_cons_succ, ih h2, List.getLast_cons h2]

/-- Claim C6: for every non-empty sequence, calculateSummary returns
totalRevenue = the sum of all revenue values, totalUsers = the activeUsers
value of the last point (a snapshot, not a sum), and avgEngagement = the
arithmetic mean of all engagementRate values. -/
theorem c6_summary_totals (l : List Metric) (h : l ≠ []) :
    (calculateSummary l).totalRevenue = (l.map (fun m => m.revenue)).sum ∧
    (calculateSummary l).totalUsers = (l.getLast h).activeUsers ∧
    (calculateSummary l).avgEngagement =
      (l.map (fun m => m.engagementRate)).sum / (l.length : ℚ) := by
  have hlen : ¬(l.length = 0) := by simpa using h
  refine ⟨?_, ?_, ?_⟩
  · simp [calculateSummary, hlen, listSum_eq_sum]
  · unfold calculateSummary
    rw [if_neg hlen]
    show (l.getD (l.length - 1) mDefault).activeUsers = (l.getLast h).activeUsers
    rw [getD_length_sub_one l h]
  · simp [calculateSummary, hlen, listSum_eq_sum]

/-- The three-point fixture of the spec: revenues 100, 200, 300. -/
def fx : List Metric :=
  [{ id := "p1", timestamp := 0, revenue := 100, activeUsers := 10, engagementRate := 50 },
   { id := "p2", timestamp := 1, revenue := 200, activeUsers := 20, engagementRate := 60 },
   { id := "p3", timestamp := 2, revenue := 300, activeUsers := 30, engagementRate := 70 }]

/-- Witness for claim C6 on the literal fixture: totalRevenue = 600,
totalUsers = 30 (last point), avgEngagement = 60. -/
theorem c6_summary_totals_witness :
    (calculateSummary fx).totalRevenue = 600 ∧
    (calculateSummary fx).totalUsers = 30 ∧
    (calculateSummary fx).avgEngagement = 60 := by
  have h := c6_summary_totals fx (by simp [fx])
  refine ⟨?_, ?_, ?_⟩
  · rw [h.1]; norm_num [fx]
  · rw [h.2.1]; rfl
  · rw [h.2.2]; norm_num [fx]

/-! ## Generator

Embedding of src/lib/data-generator.ts. Dates are epoch milliseconds; the
date-fns helpers startOfDay, endOfDay, subDays, addHours, getMonth and
isWeekend are modelled on a fixed-offset (UTC) calendar with 24-hour days.
Math.random and Math.sin are injected through the GenEnv record (the spec
requires randomness to be injectable); Math.PI is the exact rational value of
the double Math.PI.
-/

/-- date-fns startOfDay: floor to local midnight (UTC model). -/
def startOfDay (t : ℤ) : ℤ := t - t % 86400000

/-- date-fns endOfDay: 23:59:59.999 of the same day. -/
def endOfDay (t : ℤ) : ℤ := startOfDay t + 86400000 - 1

/-- The exact rational value of the IEEE-754 double Math.PI. -/
def piJS : ℚ := 884279719003555 / 281474976710656

/-- Host environment of the generator: the process-wide uniform random source
(one fresh draw per call, indexed by draw number), the trigonometric primitive
and the id generator. -/
structure GenEnv where
  sin : ℚ → ℚ
  random : ℕ → ℚ
  genId : ℕ → String

/-- JS Math.round: round half toward positive infinity. -/
def jsRound (x : ℚ) : ℚ := ((⌊x + 1 / 2⌋ : ℤ) : ℚ)

/-- Number(x.toFixed(2)): round to 2 decimal places (half up for the positive
values it is applied to here). -/
def toFixed2 (x : ℚ) : ℚ := ((⌊x * 100 + 1 / 2⌋ : ℤ) : ℚ) / 100

/-- date-fns getMonth (0-based month) on the UTC civil calendar, via the
standard days-to-civil-date conversion. -/
def getMonth (t : ℤ) : ℤ :=
  let z := t / 86400000 + 719468
  let era := z / 146097
  let doe := z - era * 146097
  let yoe := (doe - doe / 1460 + doe / 36524 - doe / 146096) / 365
  let doy := doe - (365 * yoe + yoe / 4 - yoe / 100)
  let mp := (5 * doy + 2) / 153
  (if mp < 10 then mp + 3 else mp - 9) - 1

/-- date-fns isWeekend: day of week 0 (Sunday) or 6 (Saturday); the epoch day
was a Thursday (weekday 4). -/
def isWeekendMs (t : ℤ) : Bool :=
  ((t / 86400000 + 4) % 7 == 0) || ((t / 86400000 + 4) % 7 == 6)

namespace DATA_GENERATION

def baseRevenue : ℚ := 50000

def revenueGrowth : ℚ := 15 / 100

def revenueVolatility : ℚ := 10 / 100

def baseUsers : ℚ := 10000

def usersGrowth : ℚ := 20 / 100

def usersVolatility : ℚ := 15 / 100

def baseEngagement : ℚ := 65

def engagementVolatility : ℚ := 5 / 100

def weekendBoost : ℚ := 12 / 10

def seasonalAmplitude : ℚ := 30 / 100

end DATA_GENERATION

/-- generateMetricPoint from src/lib/data-generator.ts. The three Math.random
calls of point number i are draws 3i, 3i+1, 3i+2 of the injected source. -/
def generateMetricPoint (env : GenEnv) (baseDate : ℤ) (index totalPoints : ℕ) : Metric :=
  let dayProgress : ℚ := (index : ℚ) / (totalPoints : ℚ)
  let month : ℤ := getMonth baseDate
  let seasonalFactor : ℚ :=
    1 + env.sin (((month : ℚ) - 5) / 12 * piJS * 2) * DATA_GENERATION.seasonalAmplitude
  let weekendFactor : ℚ := if isWeekendMs baseDate then DATA_GENERATION.weekendBoost else 1
  let growthFactor : ℚ := (1 + DATA_GENERATION.revenueGrowth / 30) ^ index
  let revenueVolatility : ℚ :=
    1 + (env.random (3 * index) - 5 / 10) * 2 * DATA_GENERATION.revenueVolatility
  let usersVolatility : ℚ :=
    1 + (env.random (3 * index + 1) - 5 / 10) * 2 * DATA_GENERATION.usersVolatility
  let engagementVolatility : ℚ :=
    1 + (env.random (3 * index + 2) - 5 / 10) * 2 * DATA_GENERATION.engagementVolatility
  let revenue : ℚ :=
    jsRound (DATA_GENERATION.baseRevenue * growthFactor * seasonalFactor * weekendFactor *
      revenueVolatility)
  let activeUsers : ℚ :=
    jsRound (DATA_GENERATION.baseUsers * (1 + DATA_GENERATION.usersGrowth / 30) ^ index *
      seasonalFactor * weekendFactor * usersVolatility)
  let engagement : ℚ :=
    max 40 (min 90 (DATA_GENERATION.baseEngagement *
      (1 + env.sin (dayProgress * piJS * 4) * (1 / 10)) * engagementVolatility))
  { id := env.genId index, timestamp := baseDate, revenue := revenue,
    activeUsers := activeUsers, engagementRate := toFixed2 engagement }

/-- The six time range values ("24h", "7d", "30d", "90d", "1y", "all"). -/
inductive TimeRange where
  | r24h
  | r7d
  | r30d
  | r90d
  | r1y
  | rAll
  deriving DecidableEq

/-- The subDays argument used by getDateRangeFromTimeRange in src/lib/utils.ts. -/
def rangeDays : TimeRange → ℤ
  | .r24h => 1
  | .r7d => 7
  | .r30d => 30
  | .r90d => 90
  | .r1y => 365
  | .rAll => 730

/-- getDateRangeFromTimeRange from src/lib/utils.ts: from = startOfDay of
(end minus the range days), to = endOfDay of now. -/
def getDateRangeFromTimeRange (tr : TimeRange) (now : ℤ) : ℤ × ℤ :=
  let e := endOfDay now
  (startOfDay (e - rangeDays tr * 86400000), e)

/-- The per-range sample interval, in hours (switch in generateMetrics). -/
def intervalHoursOf : TimeRange → ℤ
  | .r24h => 1
  | .r7d => 24
  | .r30d => 24
  | .r90d => 72
  | .r1y => 168
  | .rAll => 336

/-- The per-range nominal point count (switch in generateMetrics). -/
def totalPointsOf : TimeRange → ℕ
  | .r24h => 24
  | .r7d => 7
  | .r30d => 30
  | .r90d => 30
  | .r1y => 52
  | .rAll => 52

/-- The while loop of generateMetrics: push a point while currentDate is at
most the end bound and fewer than totalPoints points were produced. The fuel
argument equals totalPoints minus index, which bounds the iteration count. -/
def genLoop (env : GenEnv) (toMs intervalMs : ℤ) (total : ℕ) :
    ℕ → ℤ → ℕ → List Metric
  | 0, _, _ => []
  | fuel + 1, current, index =>
    if current ≤ toMs ∧ index < total then
      generateMetricPoint env current index total ::
        genLoop env toMs intervalMs total fuel (current + intervalMs) (index + 1)
    else []

/-- generateMetrics from src/lib/data-generator.ts. -/
def generateMetrics (env : GenEnv) (now : ℤ) (tr : TimeRange) : List Metric :=
  let r := getDateRangeFromTimeRange tr now
  genLoop env r.2 (intervalHoursOf tr * 3600000) (totalPointsOf tr)
    (totalPointsOf tr) (startOfDay r.1) 0

/-- generateNewMetric from src/lib/data-generator.ts: a single point anchored
at now. -/
def generateNewMetric (env : GenEnv) (now : ℤ) : Metric :=
  generateMetricPoint env now 0 1

lemma genLoop_eq_map (env : GenEnv) (toMs intervalMs : ℤ) (total : ℕ) :
    ∀ (fuel index : ℕ) (current : ℤ), index + fuel ≤ total →
      (∀ j : ℕ, j < fuel → current + (j : ℤ) * intervalMs ≤ toMs) →
      genLoop env toMs intervalMs total fuel current index =
        (List.range fuel).map
          (fun (j : ℕ) =>
            generateMetricPoint env (current + (j : ℤ) * intervalMs) (index + j) total) := by
  intro fuel
  induction fuel with
  | zero =>
    intro index current _ _
    simp [genLoop]
  | succ n ih =>
    intro index current htot hguard
    have hc : current ≤ toMs := by
      have h0 := hguard 0 (by omega)
      simpa using h0
    have hidx : index < total := by omega
    have hg2 : ∀ j : ℕ, j < n → (current + intervalMs) + (j : ℤ) * intervalMs ≤ toMs := by
      intro j hj
      have h1 := hguard (j + 1) (by omega)
      push_cast at h1 ⊢
      ring_nf at h1 ⊢
      linarith
    simp only [genLoop, if_pos (And.intro hc hidx)]
    rw [ih (index + 1) (current + intervalMs) (by omega) hg2]
    rw [List.range_succ_eq_map]
    simp only [List.map_cons, List.map_map]
    congr 1
    · simp
    · apply List.map_congr_left
      intro j _
      simp only [Function.comp_apply]
      have h1 : current + ((j : ℤ) + 1) * intervalMs =
          current + intervalMs + (j : ℤ) * intervalMs := by ring
      push_cast
      rw [h1, (by omega : index + (j + 1) = index + 1 + j)]

lemma getDateRange_eval (tr : TimeRange) (now : ℤ) :
    getDateRangeFromTimeRange tr now =
      (startOfDay now - rangeDays tr * 86400000, startOfDay now + 86400000 - 1) := by
  unfold getDateRangeFromTimeRange endOfDay startOfDay
  simp only [Prod.mk.injEq]
  exact ⟨by omega, trivial⟩

lemma startOfDay_sub_days (now c : ℤ) :
    startOfDay (startOfDay now - c * 86400000) = startOfDay now - c * 86400000 := by
  unfold startOfDay
  omega

/-- Closed form of generateMetrics when the requested point count fits inside
the window bounds: exactly totalPoints points at interval steps. -/
lemma generateMetrics_eval (env : GenEnv) (now : ℤ) (tr : TimeRange)
    (hguard : ∀ j : ℕ, j < totalPointsOf tr →
      (j : ℤ) * (intervalHoursOf tr * 3600000) ≤ rangeDays tr * 86400000 + 86400000 - 1) :
    generateMetrics env now tr =
      (List.range (totalPointsOf tr)).map (fun (j : ℕ) =>
        generateMetricPoint env
          (startOfDay now - rangeDays tr * 86400000 + (j : ℤ) * (intervalHoursOf tr * 3600000))
          j (totalPointsOf tr)) := by
  have hidem := startOfDay_sub_days now (rangeDays tr)
  have hg : ∀ j : ℕ, j < totalPointsOf tr →
      (startOfDay now - rangeDays tr * 86400000) + (j : ℤ) * (intervalHoursOf tr * 3600000) ≤
        startOfDay now + 86400000 - 1 := by
    intro j hj
    have h1 := hguard j hj
    linarith
  have hmap := genLoop_eq_map env (startOfDay now + 86400000 - 1)
    (intervalHoursOf tr * 3600000) (totalPointsOf tr) (totalPointsOf tr) 0
    (startOfDay now - rangeDays tr * 86400000) (by omega) hg
  unfold generateMetrics
  rw [getDateRange_eval]
  dsimp only
  rw [hidem, hmap]
  apply List.map_congr_left
  intro j _
  simp

lemma generateMetricPoint_timestamp (env : GenEnv) (d : ℤ) (i N : ℕ) :
    (generateMetricPoint env d i N).timestamp = d := rfl

lemma range_map_getD (f : ℕ → Metric) (n i : ℕ) (h : i < n) :
    ((List.range n).map f).getD i mDefault = f i := by
  have hlen : i < ((List.range n).map f).length := by simpa using h
  rw [List.getD_eq_getElem _ _ hlen]
  simp

/-! Bounds for a single generated point. -/

lemma jsRound_nonneg (x : ℚ) (hx : 0 ≤ x) : 0 ≤ jsRound x := by
  unfold jsRound
  have h : (0 : ℤ) ≤ ⌊x + 1 / 2⌋ := Int.floor_nonneg.mpr (by linarith)
  exact_mod_cast h

lemma toFixed2_clamp_bounds (x : ℚ) :
    40 ≤ toFixed2 (max 40 (min 90 x)) ∧ toFixed2 (max 40 (min 90 x)) ≤ 90 := by
  set c := max 40 (min 90 x) with hc
  have hc40 : (40 : ℚ) ≤ c := le_max_left _ _
  have hc90 : c ≤ 90 := max_le (by norm_num) (min_le_left _ _)
  unfold toFixed2
  constructor
  · have h1 : (4000 : ℤ) ≤ ⌊c * 100 + 1 / 2⌋ := Int.le_floor.mpr (by push_cast; linarith)
    have h2 : ((4000 : ℤ) : ℚ) ≤ ((⌊c * 100 + 1 / 2⌋ : ℤ) : ℚ) := by exact_mod_cast h1
    push_cast at h2
    linarith
  · have h1 : ⌊c * 100 + 1 / 2⌋ < 9001 := Int.floor_lt.mpr (by push_cast; linarith)
    have h2 : ((⌊c * 100 + 1 / 2⌋ : ℤ) : ℚ) ≤ ((9000 : ℤ) : ℚ) := by
      exact_mod_cast (by omega : ⌊c * 100 + 1 / 2⌋ ≤ 9000)
    push_cast at h2
    linarith

lemma generateMetricPoint_bounds (env : GenEnv)
    (hsin : ∀ x : ℚ, -1 ≤ env.sin x ∧ env.sin x ≤ 1)
    (hrand : ∀ n : ℕ, 0 ≤ env.random n ∧ env.random n < 1)
    (d : ℤ) (i N : ℕ) :
    0 ≤ (generateMetricPoint env d i N).revenue ∧
    0 ≤ (generateMetricPoint env d i N).activeUsers ∧
    40 ≤ (generateMetricPoint env d i N).engagementRate ∧
    (generateMetricPoint env d i N).engagementRate ≤ 90 := by
  have hseas : ∀ x : ℚ, 0 ≤ 1 + env.sin x * DATA_GENERATION.seasonalAmplitude := by
    intro x
    have h := mul_le_mul_of_nonneg_right (hsin x).1
      (by norm_num [DATA_GENERATION.seasonalAmplitude] : (0 : ℚ) ≤ DATA_GENERATION.seasonalAmplitude)
    unfold DATA_GENERATION.seasonalAmplitude at h ⊢
    linarith
  have hwk : (0 : ℚ) ≤ (if isWeekendMs d then DATA_GENERATION.weekendBoost else 1) := by
    split
    · norm_num [DATA_GENERATION.weekendBoost]
    · norm_num
  have hvol : ∀ (n : ℕ) (c : ℚ), 0 ≤ c → c ≤ 1 / 2 →
      0 ≤ 1 + (env.random n - 5 / 10) * 2 * c := by
    intro n c hc0 hc1
    have h0 := (hrand n).1
    nlinarith [mul_nonneg hc0 h0]
  have hgrow : ∀ (g : ℚ), 0 ≤ g → (0 : ℚ) ≤ (1 + g / 30) ^ i := by
    intro g hg
    exact pow_nonneg (by linarith) i
  dsimp only [generateMetricPoint]
  refine ⟨jsRound_nonneg _ ?_, jsRound_nonneg _ ?_,
    (toFixed2_clamp_bounds _).1, (toFixed2_clamp_bounds _).2⟩
  · exact mul_nonneg (mul_nonneg (mul_nonneg
      (mul_nonneg (by norm_num [DATA_GENERATION.baseRevenue])
        (hgrow _ (by norm_num [DATA_GENERATION.revenueGrowth])))
      (hseas _)) hwk)
      (hvol _ _ (by norm_num [DATA_GENERATION.revenueVolatility])
        (by norm_num [DATA_GENERATION.revenueVolatility]))
  · exact mul_nonneg (mul_nonneg (mul_nonneg
      (mul_nonneg (by norm_num [DATA_GENERATION.baseUsers])
        (hgrow _ (by norm_num [DATA_GENERATION.usersGrowth])))
      (hseas _)) hwk)
      (hvol _ _ (by norm_num [DATA_GENERATION.usersVolatility])
        (by norm_num [DATA_GENERATION.usersVolatility]))

/-- Claim C5: generateMetrics("24h") returns exactly 24 points whose
timestamps ascend in steps of exactly 1 hour, and every point satisfies
revenue at least 0, activeUsers at least 0, and engagementRate between 40 and
90, for any injected random source (values in the unit interval) and any
sine primitive (values in the unit ball). -/
theorem c5_generate24h (env : GenEnv) (now : ℤ)
    (hsin : ∀ x : ℚ, -1 ≤ env.sin x ∧ env.sin x ≤ 1)
    (hrand : ∀ n : ℕ, 0 ≤ env.random n ∧ env.random n < 1) :
    (generateMetrics env now .r24h).length = 24 ∧
    (∀ i : ℕ, i + 1 < (generateMetrics env now .r24h).length →
      ((generateMetrics env now .r24h).getD (i + 1) mDefault).timestamp =
        ((generateMetrics env now .r24h).getD i mDefault).timestamp + 3600000) ∧
    (∀ m ∈ generateMetrics env now .r24h,
      0 ≤ m.revenue ∧ 0 ≤ m.activeUsers ∧ 40 ≤ m.engagementRate ∧ m.engagementRate ≤ 90) := by
  have heval := generateMetrics_eval env now .r24h (by
    intro j hj
    have hj23 : (j : ℤ) ≤ 23 := by
      exact_mod_cast Nat.le_of_lt_succ (by simpa [totalPointsOf] using hj)
    simp only [intervalHoursOf, rangeDays]
    linarith)
  simp only [totalPointsOf, intervalHoursOf, rangeDays, one_mul] at heval
  rw [heval]
  refine ⟨by simp, ?_, ?_⟩
  · intro i hi
    have hi24 : i + 1 < 24 := by simpa using hi
    rw [range_map_getD _ _ _ hi24, range_map_getD _ _ _ (by omega)]
    rw [generateMetricPoint_timestamp, generateMetricPoint_timestamp]
    push_cast
    ring
  · intro m hm
    simp only [List.mem_map, List.mem_range] at hm
    obtain ⟨j, _, rfl⟩ := hm
    exact generateMetricPoint_bounds env hsin hrand _ _ _

/-- A concrete deterministic environment: the zero sine stand-in and the
constant-zero random source, both within the required ranges. -/
def env0 : GenEnv := { sin := fun _ => 0, random := fun _ => 0, genId := fun _ => "" }

/-- A concrete reference instant (epoch milliseconds). -/
def now0 : ℤ := 1760000000000

/-- Witness for claim C5 at the concrete environment env0 and instant now0. -/
theorem c5_generate24h_witness :
    (generateMetrics env0 now0 .r24h).length = 24 ∧
    (∀ i : ℕ, i + 1 < (generateMetrics env0 now0 .r24h).length →
      ((generateMetrics env0 now0 .r24h).getD (i + 1) mDefault).timestamp =
        ((generateMetrics env0 now0 .r24h).getD i mDefault).timestamp + 3600000) ∧
    (∀ m ∈ generateMetrics env0 now0 .r24h,
      0 ≤ m.revenue ∧ 0 ≤ m.activeUsers ∧ 40 ≤ m.engagementRate ∧ m.engagementRate ≤ 90) := by
  exact c5_generate24h env0 now0
    (fun x => by norm_num [env0])
    (fun n => by norm_num [env0])

/-! ## Stream Consumer

Embedding of the useMetrics hook (the client streaming consumer). Its mutable
refs and state setters become fields of a single state record; the EventSource
callbacks, the scheduled reconnect timeout, the history fetch completion and
the caller disconnect become events of a step function. EventSource callbacks
only fire while an EventSource instance is active, and the timeout only fires
while one is scheduled, so those events are guarded by the corresponding
fields. -/

/-- ERROR_MESSAGES.STREAM_DISCONNECTED from the constants module. -/
def streamDisconnectedMsg : String := "Real-time connection lost. Reconnecting..."

namespace SSE_CONFIG

def reconnectInterval : ℕ := 3000

def maxReconnectAttempts : ℕ := 5

def heartbeatInterval : ℕ := 30000

def updateInterval : ℕ := 5000

end SSE_CONFIG

/-- The ConnectionStatus union of src/types. -/
inductive ConnectionStatus where
  | disconnected
  | connected
  | reconnecting
  | error
  deriving DecidableEq

/-- A parsed stream message as seen by the onmessage handler: only the
"metric" tag carries data the consumer uses. -/
inductive SSEMsg where
  | metric (m : Metric)
  | connection
  | errorMsg
  deriving DecidableEq

/-- The consumer state: connection status, the retry counter ref, the metrics
window, the pending reconnect timeout (holding its delay in ms), whether an
EventSource instance is live, and the last surfaced error message. -/
structure ConsumerState where
  status : ConnectionStatus
  retries : ℕ
  window : List Metric
  pending : Option ℕ
  esActive : Bool
  lastError : Option String
  deriving DecidableEq

/-- Initial consumer state (all refs at their initial values). -/
def initConsumer : ConsumerState :=
  { status := .disconnected, retries := 0, window := [], pending := none,
    esActive := false, lastError := none }

/-- Events driving the consumer: the EventSource open, message and error
callbacks, the reconnect timeout firing (which increments the retry counter
and calls connectSSE), a completed history fetch installing the fetched
sequence, and the caller-initiated disconnect. An esMessage carrying none
models a malformed payload that failed to parse. -/
inductive ConsumerEvent where
  | esOpen
  | esMessage (parsed : Option SSEMsg)
  | esError
  | timerFire
  | fetchSuccess (data : List Metric)
  | disconnect
  deriving DecidableEq

/-- One transition of the consumer, following the handlers in the useMetrics
hook. The onerror handler first reports disconnected and then either
schedules a reconnect (net status reconnecting) with delay
reconnectInterval * 2 ^ retries, or, once the retry counter has reached
maxReconnectAttempts, reports the terminal error status and surfaces the
stream-disconnected message. -/
def consumerStep (s : ConsumerState) : ConsumerEvent → ConsumerState
  | .esOpen =>
    if s.esActive then { s with status := .connected, retries := 0 } else s
  | .esMessage p =>
    if s.esActive then
      match p with
      | some (.metric m) => { s with window := pushMetric s.window m }
      | _ => s
    else s
  | .esError =>
    if s.esActive then
      if s.retries < SSE_CONFIG.maxReconnectAttempts then
        { s with
          esActive := false
          status := .reconnecting
          pending := some (SSE_CONFIG.reconnectInterval * 2 ^ s.retries) }
      else
        { s with
          esActive := false
          status := .error
          lastError := some streamDisconnectedMsg }
    else s
  | .timerFire =>
    match s.pending with
    | some _ => { s with pending := none, retries := s.retries + 1, esActive := true }
    | none => s
  | .fetchSuccess data => { s with window := data }
  | .disconnect =>
    { s with esActive := false, pending := none, status := .disconnected, retries := 0 }

/-- Run the consumer over a sequence of events. -/
def runConsumer (s : ConsumerState) (evs : List ConsumerEvent) : ConsumerState :=
  evs.foldl consumerStep s

lemma generateMetrics_r1y_len (env : GenEnv) (now : ℤ) :
    (generateMetrics env now .r1y).length = 52 := by
  have heval := generateMetrics_eval env now .r1y (by
    intro j hj
    have hj51 : (j : ℤ) ≤ 51 := by
      exact_mod_cast Nat.le_of_lt_succ (by simpa [totalPointsOf] using hj)
    simp only [intervalHoursOf, rangeDays]
    linarith)
  rw [heval]
  simp [totalPointsOf]

/-- Claim C2 counterexample: the state reached from the initial consumer state
by a single completed history fetch of the 1y window holds 52 points, more
than 50 — the fetch path installs the entire fetched sequence without
truncation. -/
theorem c2_counterexample :
    50 < (runConsumer initConsumer
      [ConsumerEvent.fetchSuccess (generateMetrics env0 now0 .r1y)]).window.length ∧
    (runConsumer initConsumer
      [ConsumerEvent.fetchSuccess (generateMetrics env0 now0 .r1y)]).window.length = 52 := by
  have h : (runConsumer initConsumer
      [ConsumerEvent.fetchSuccess (generateMetrics env0 now0 .r1y)]).window =
      generateMetrics env0 now0 .r1y := rfl
  constructor
  · rw [h, generateMetrics_r1y_len env0 now0]
    norm_num
  · rw [h, generateMetrics_r1y_len env0 now0]

/-- Claim C3: the reconnect delay scheduled after a connection fault at retry
count r is reconnectInterval * 2 ^ r (with status reconnecting); the delays
for attempts 0 through 4 at baseInterval 3000 ms are 3000, 6000, 12000,
24000, 48000 ms; and the retry counter increments by exactly one when a
scheduled attempt fires. -/
theorem c3_backoff (s t : ConsumerState)
    (hs : s.esActive = true) (hr : s.retries < SSE_CONFIG.maxReconnectAttempts)
    (ht : t.pending.isSome = true) :
    (consumerStep s .esError).pending =
      some (SSE_CONFIG.reconnectInterval * 2 ^ s.retries) ∧
    (consumerStep s .esError).status = .reconnecting ∧
    (consumerStep t .timerFire).retries = t.retries + 1 ∧
    (List.range 5).map (fun r => SSE_CONFIG.reconnectInterval * 2 ^ r) =
      [3000, 6000, 12000, 24000, 48000] := by
  refine ⟨?_, ?_, ?_, ?_⟩
  · simp [consumerStep, hs, hr]
  · simp [consumerStep, hs, hr]
  · obtain ⟨d, hd⟩ := Option.isSome_iff_exists.mp ht
    simp [consumerStep, hd]
  · decide

/-- A connected consumer state with no retries yet. -/
def csA : ConsumerState :=
  { status := .connected, retries := 0, window := [], pending := none,
    esActive := true, lastError := none }

/-- A reconnecting consumer state with a scheduled timeout. -/
def csB : ConsumerState :=
  { status := .reconnecting, retries := 0, window := [], pending := some 3000,
    esActive := false, lastError := none }

/-- Witness for claim C3 at concrete consumer states. -/
theorem c3_backoff_witness :
    (consumerStep csA .esError).pending = some 3000 ∧
    (consumerStep csA .esError).status = .reconnecting ∧
    (consumerStep csB .timerFire).retries = 1 ∧
    (List.range 5).map (fun r => SSE_CONFIG.reconnectInterval * 2 ^ r) =
      [3000, 6000, 12000, 24000, 48000] := by
  have h := c3_backoff csA csB rfl (by decide) rfl
  simpa [csA, csB, SSE_CONFIG.reconnectInterval] using h

/-- The terminal shape of the consumer after retries are exhausted: error
status, no scheduled reconnect, no live EventSource. -/
def errorLocked (s : ConsumerState) : Prop :=
  s.status = .error ∧ s.pending = none ∧ s.esActive = false

lemma errorLocked_step (s : ConsumerState) (h : errorLocked s) (e : ConsumerEvent)
    (he : e ≠ ConsumerEvent.disconnect) : errorLocked (consumerStep s e) := by
  obtain ⟨h1, h2, h3⟩ := h
  cases e with
  | esOpen =>
    simp only [consumerStep, h3]
    exact ⟨h1, h2, h3⟩
  | esMessage p =>
    simp only [consumerStep, h3]
    exact ⟨h1, h2, h3⟩
  | esError =>
    simp only [consumerStep, h3]
    exact ⟨h1, h2, h3⟩
  | timerFire =>
    simp only [consumerStep, h2]
    exact ⟨h1, h2, h3⟩
  | fetchSuccess data =>
    exact ⟨h1, h2, h3⟩
  | disconnect =>
    exact absurd rfl he

lemma errorLocked_run (evs : List ConsumerEvent) :
    ∀ s : ConsumerState, errorLocked s →
      (∀ e ∈ evs, e ≠ ConsumerEvent.disconnect) → errorLocked (runConsumer s evs) := by
  induction evs with
  | nil =>
    intro s h _
    exact h
  | cons e t ih =>
    intro s h hall
    have h1 := errorLocked_step s h e (hall e (by simp))
    exact ih (consumerStep s e) h1 (fun x hx => hall x (by simp [hx]))

/-- Claim C4: when a connection fault arrives with the retry counter at
maxReconnectAttempts, the consumer reaches the error status, cancels nothing
further (no reconnect is pending), closes its EventSource, and surfaces the
descriptive stream-disconnected failure; and from that state every further
sequence of environment events (EventSource callbacks, timer firings,
fetches — everything except a caller-initiated disconnect) leaves the status
error, with no reconnect ever scheduled. -/
theorem c4_error_terminal (s : ConsumerState)
    (hs : s.esActive = true) (hp : s.pending = none)
    (hr : SSE_CONFIG.maxReconnectAttempts ≤ s.retries) :
    (consumerStep s .esError).status = .error ∧
    (consumerStep s .esError).pending = none ∧
    (consumerStep s .esError).esActive = false ∧
    (consumerStep s .esError).lastError = some streamDisconnectedMsg ∧
    (∀ evs : List ConsumerEvent, (∀ e ∈ evs, e ≠ ConsumerEvent.disconnect) →
      (runConsumer (consumerStep s .esError) evs).status = .error ∧
      (runConsumer (consumerStep s .esError) evs).pending = none ∧
      (runConsumer (consumerStep s .esError) evs).esActive = false) := by
  have hnr : ¬(s.retries < SSE_CONFIG.maxReconnectAttempts) := by omega
  have hlock : errorLocked (consumerStep s .esError) := by
    refine ⟨?_, ?_, ?_⟩ <;> simp [consumerStep, hs, hnr, hp]
  have herr : (consumerStep s .esError).lastError = some streamDisconnectedMsg := by
    simp [consumerStep, hs, hnr]
  refine ⟨hlock.1, hlock.2.1, hlock.2.2, herr, ?_⟩
  intro evs hevs
  exact errorLocked_run evs (consumerStep s .esError) hlock hevs

/-- A connected consumer state whose retry counter has reached the maximum. -/
def csC : ConsumerState :=
  { status := .connected, retries := 5, window := [], pending := none,
    esActive := true, lastError := none }

/-- Witness for claim C4 at a concrete exhausted state and a concrete
follow-up event sequence. -/
theorem c4_error_terminal_witness :
    (consumerStep csC .esError).status = .error ∧
    (consumerStep csC .esError).pending = none ∧
    (consumerStep csC .esError).esActive = false ∧
    (consumerStep csC .esError).lastError = some streamDisconnectedMsg ∧
    ((runConsumer (consumerStep csC .esError)
        [ConsumerEvent.esError, ConsumerEvent.timerFire, ConsumerEvent.esOpen]).status = .error ∧
      (runConsumer (consumerStep csC .esError)
        [ConsumerEvent.esError, ConsumerEvent.timerFire, ConsumerEvent.esOpen]).pending = none ∧
      (runConsumer (consumerStep csC .esError)
        [ConsumerEvent.esError, ConsumerEvent.timerFire, ConsumerEvent.esOpen]).esActive = false) := by
  have h := c4_error_terminal csC rfl rfl (by decide)
  exact ⟨h.1, h.2.1, h.2.2.1, h.2.2.2.1, h.2.2.2.2 _ (by decide)⟩

/-! ## Push Transport

Embedding of the /api/stream route: a per-subscriber ReadableStream whose
start callback emits one connection message, installs a data interval and a
heartbeat interval, and registers an abort listener that clears both
intervals and closes the controller. Interval callbacks fire only while their
interval is installed, and the abort signal of a request fires at most once;
both facts are reflected as guards of the step function. -/

/-- Observable actions of the transport: the framed SSE writes and the
controller close. -/
inductive TransportAct where
  | emitConnection
  | emitMetric
  | emitHeartbeat
  | closeChannel
  deriving DecidableEq

/-- Transport state: whether each interval is installed and whether the
controller was closed. -/
structure TransportState where
  dataActive : Bool
  hbActive : Bool
  closed : Bool
  deriving DecidableEq

/-- Events delivered to the transport: a data-interval tick, a
heartbeat-interval tick, and the abort signal of the subscriber request. -/
inductive TransportEvent where
  | dataTick
  | hbTick
  | abortSignal
  deriving DecidableEq

/-- State right after the start callback ran: both intervals installed,
controller open. -/
def transportInit : TransportState :=
  { dataActive := true, hbActive := true, closed := false }

/-- The single write performed directly by the start callback. -/
def transportOpenActs : List TransportAct := [.emitConnection]

/-- One transition of the transport with the actions it performs. A tick of a
cleared interval does nothing; the abort listener clears both intervals and
closes the channel. -/
def transportStep (s : TransportState) : TransportEvent → TransportState × List TransportAct
  | .dataTick => if s.dataActive then (s, [.emitMetric]) else (s, [])
  | .hbTick => if s.hbActive then (s, [.emitHeartbeat]) else (s, [])
  | .abortSignal =>
    if s.closed then (s, [])
    else ({ dataActive := false, hbActive := false, closed := true }, [.closeChannel])

/-- Run the transport over a sequence of events, accumulating actions. -/
def runTransport (s : TransportState) (evs : List TransportEvent) :
    TransportState × List TransportAct :=
  evs.foldl (fun acc e =>
    let r := transportStep acc.1 e
    (r.1, acc.2 ++ r.2)) (s, [])

/-- Claim C9: on the cancellation signal of a live transport, both timers are
stopped and the channel close is the single action performed (so the channel
is closed exactly once); afterwards no event sequence produces any action at
all — in particular no metric, connection or heartbeat message is ever
emitted after cancellation. -/
theorem c9_cancellation (s : TransportState) (h : s.closed = false) :
    transportStep s .abortSignal =
      ({ dataActive := false, hbActive := false, closed := true },
        [TransportAct.closeChannel]) ∧
    (∀ evs : List TransportEvent,
      runTransport { dataActive := false, hbActive := false, closed := true } evs =
        ({ dataActive := false, hbActive := false, closed := true }, [])) := by
  constructor
  · simp [transportStep, h]
  · intro evs
    have key : ∀ (evs : List TransportEvent) (acc : List TransportAct),
        evs.foldl (fun acc e =>
            let r := transportStep acc.1 e
            (r.1, acc.2 ++ r.2))
          (({ dataActive := false, hbActive := false, closed := true } : TransportState), acc) =
          ({ dataActive := false, hbActive := false, closed := true }, acc) := by
      intro evs
      induction evs with
      | nil =>
        intro acc
        rfl
      | cons e t ih =>
        intro acc
        cases e <;> simpa [transportStep] using ih acc
    exact key evs []

/-- Witness for claim C9: cancelling the freshly opened transport and then
delivering stray tick and abort events produces no further action. -/
theorem c9_cancellation_witness :
    transportStep transportInit .abortSignal =
      ({ dataActive := false, hbActive := false, closed := true },
        [TransportAct.closeChannel]) ∧
    runTransport { dataActive := false, hbActive := false, closed := true }
        [TransportEvent.dataTick, TransportEvent.hbTick, TransportEvent.abortSignal] =
      ({ dataActive := false, hbActive := false, closed := true }, []) := by
  have h := c9_cancellation transportInit rfl
  exact ⟨h.1, h.2 _⟩

/-! ## History Endpoint

Embedding of the GET handler of /api/metrics: read the timeRange query
parameter, fall back to the default when it is missing or empty (the JS
falsy-or), validate it against the six known values, and either answer 400
with an error body or 200 with the generated window, its summary and the
first/last timestamps. -/

def s24h : String := "24h"

def s7d : String := "7d"

def s30d : String := "30d"

def s90d : String := "90d"

def s1y : String := "1y"

def sAll : String := "all"

def emptyStr : String := ""

/-- The validRanges list of the handler. -/
def validRangeStrings : List String := [s24h, s7d, s30d, s90d, s1y, sAll]

/-- Validation plus the per-range switch: a recognized string maps to its
TimeRange, everything else to none. -/
def parseTimeRange (s : String) : Option TimeRange :=
  if s = s24h then some .r24h
  else if s = s7d then some .r7d
  else if s = s30d then some .r30d
  else if s = s90d then some .r90d
  else if s = s1y then some .r1y
  else if s = sAll then some .rAll
  else none

/-- The 400 error body text of the handler. -/
def invalidTimeRangeMsg : String := "Invalid time range parameter"

/-- metrics[0]?.timestamp with new Date() as fallback. -/
def apiStart (metrics : List Metric) (now : ℤ) : ℤ :=
  match metrics.head? with
  | some m => m.timestamp
  | none => now

/-- metrics[metrics.length - 1]?.timestamp with new Date() as fallback. -/
def apiEnd (metrics : List Metric) (now : ℤ) : ℤ :=
  match metrics.getLast? with
  | some m => m.timestamp
  | none => now

/-- The successful response payload: data, summary and time range bounds. -/
structure ApiOk where
  data : List Metric
  summary : Summary
  startT : ℤ
  endT : ℤ
  deriving DecidableEq

/-- A JSON response body: either the ok payload or an error object. -/
inductive ApiBody where
  | ok (payload : ApiOk)
  | err (msg : String)
  deriving DecidableEq

/-- An HTTP response: status code and body. -/
structure ApiResponse where
  status : ℕ
  body : ApiBody
  deriving DecidableEq

/-- The GET handler of /api/metrics. The parameter is none when the query
string has no timeRange key; searchParams.get(..) || defaults both a missing
and an empty value to the 30d range. -/
def metricsGET (env : GenEnv) (now : ℤ) (param : Option String) : ApiResponse :=
  let timeRange : String :=
    match param with
    | none => s30d
    | some v => if v = emptyStr then s30d else v
  match parseTimeRange timeRange with
  | none => { status := 400, body := .err invalidTimeRangeMsg }
  | some tr =>
    let metrics := generateMetrics env now tr
    { status := 200
      body := .ok { data := metrics
                    summary := calculateSummary metrics
                    startT := apiStart metrics now
                    endT := apiEnd metrics now } }

lemma parse_none_iff (v : String) : parseTimeRange v = none ↔ v ∉ validRangeStrings := by
  unfold parseTimeRange validRangeStrings
  split_ifs <;> simp_all

/-- Claim C8 counterexample: the empty string is a supplied timeRange value
that is not one of the six recognized values, yet the handler answers 200
(the JS falsy-or folds it into the 30d default) instead of the 400 the claim
requires. -/
theorem c8_counterexample :
    emptyStr ∉ validRangeStrings ∧ (metricsGET env0 now0 (some emptyStr)).status = 200 := by
  constructor
  · decide
  · rfl

/-- Claim C8 (amended): the handler answers 400 with an error body exactly
when a timeRange value was supplied that is neither empty nor one of
24h, 7d, 30d, 90d, 1y, all (a missing or empty value falls back to the 30d
default); for every recognized value it answers 200 with the generated data,
its summary and the start and end time bounds. -/
theorem c8_status (env : GenEnv) (now : ℤ) (param : Option String) :
    ((metricsGET env now param).status = 400 ↔
      ∃ v, param = some v ∧ v ≠ emptyStr ∧ v ∉ validRangeStrings) ∧
    ((metricsGET env now param).status = 400 →
      (metricsGET env now param).body = .err invalidTimeRangeMsg) ∧
    (∀ v tr, param = some v → parseTimeRange v = some tr →
      (metricsGET env now param).status = 200 ∧
      (metricsGET env now param).body = .ok
        { data := generateMetrics env now tr
          summary := calculateSummary (generateMetrics env now tr)
          startT := apiStart (generateMetrics env now tr) now
          endT := apiEnd (generateMetrics env now tr) now }) := by
  cases param with
  | none =>
    have hp : parseTimeRange s30d = some TimeRange.r30d := by decide
    refine ⟨?_, ?_, ?_⟩
    · simp [metricsGET, hp]
    · intro h400
      simp [metricsGET, hp] at h400
    · intro v tr hv
      simp at hv
  | some v =>
    by_cases hv0 : v = emptyStr
    · subst hv0
      have hp : parseTimeRange s30d = some TimeRange.r30d := by decide
      refine ⟨?_, ?_, ?_⟩
      · simp [metricsGET, hp]
      · intro h400
        simp [metricsGET, hp] at h400
      · intro v' tr hev hptr
        injection hev with h
        subst h
        have hnone : parseTimeRange emptyStr = none := by decide
        rw [hnone] at hptr
        cases hptr
    · cases hpv : parseTimeRange v with
      | none =>
        have hmem := (parse_none_iff v).mp hpv
        refine ⟨?_, ?_, ?_⟩
        · constructor
          · intro _
            exact ⟨v, rfl, hv0, hmem⟩
          · intro _
            simp [metricsGET, hv0, hpv]
        · intro _
          simp [metricsGET, hv0, hpv]
        · intro v' tr hev hptr
          injection hev with h
          subst h
          rw [hpv] at hptr
          cases hptr
      | some tr0 =>
        refine ⟨?_, ?_, ?_⟩
        · constructor
          · intro h400
            simp [metricsGET, hv0, hpv] at h400
          · rintro ⟨v', hev, hne, hmem⟩
            injection hev with h
            subst h
            have h0 := (parse_none_iff v).mpr hmem
            rw [hpv] at h0
            cases h0
        · intro h400
          simp [metricsGET, hv0, hpv] at h400
        · intro v' tr hev hptr
          injection hev with h
          subst h
          rw [hpv] at hptr
          injection hptr with h2
          subst h2
          constructor
          · simp [metricsGET, hv0, hpv]
          · simp [metricsGET, hv0, hpv]

/-- Witness for the amended claim C8 at the recognized value 24h. -/
theorem c8_status_witness :
    (metricsGET env0 now0 (some s24h)).status = 200 ∧
    (metricsGET env0 now0 (some s24h)).body = .ok
      { data := generateMetrics env0 now0 .r24h
        summary := calculateSummary (generateMetrics env0 now0 .r24h)
        startT := apiStart (generateMetrics env0 now0 .r24h) now0
        endT := apiEnd (generateMetrics env0 now0 .r24h) now0 } := by
  exact (c8_status env0 now0 (some s24h)).2.2 s24h .r24h rfl (by decide)

end NeuralMetrics
